import Mathlib

/-!
Verification of the candle-aggregation core of the compass-financial
repository: candle building (updateCandleWithTick), the historical /
real-time merger (mergeHistoricalAndRealtime), and the close-event
reconnection logic of the two streaming clients (finnhubWebSocket,
eodhdWebSocket).

Modelling conventions:
- JS numbers carrying epoch-millisecond timestamps are modelled as Int;
  Math.floor(x / p) * p on integer input with positive p is Int
  Euclidean division (which rounds toward negative infinity for the
  positive divisors used here), written x / p * p.
- JS numbers carrying prices and volumes are modelled as Rat; the code
  only compares them (max, min) and adds volumes.
- Optional JS fields are Option; the JS truthiness idiom (x || d) on an
  optional number, which falls back to d when x is undefined OR zero, is
  the function jsOr below.
-/

/-- Timeframe values, the string union 1H | 1D | 1W | 1M | 1Y from
src/store/slices/uiSlice.ts (constructor h1 stands for the string 1H,
and so on). -/
inductive Timeframe
  | h1
  | d1
  | w1
  | m1
  | y1
  deriving DecidableEq

/-- Candle period in milliseconds for a timeframe, from
getCandlePeriodMs in src/utils/candleUtils.ts. The default arm of the
source switch is unreachable because Timeframe is a closed union. -/
def getCandlePeriodMs : Timeframe → Int
  | .h1 => 60 * 60 * 1000
  | .d1 => 24 * 60 * 60 * 1000
  | .w1 => 7 * 24 * 60 * 60 * 1000
  | .m1 => 30 * 24 * 60 * 60 * 1000
  | .y1 => 365 * 24 * 60 * 60 * 1000

/-- Timeframe-aligned floor of a timestamp, from getCandleStartTimestamp
in src/utils/candleUtils.ts: Math.floor(timestamp / periodMs) * periodMs. -/
def getCandleStartTimestamp (timestamp : Int) (timeframe : Timeframe) : Int :=
  timestamp / getCandlePeriodMs timeframe * getCandlePeriodMs timeframe

/-- The ChartData record from src/app/stock/[symbol].tsx (re-exported by
stockDataSlice): timestamp and value are required, the OHLCV fields are
optional. The source field named open is called open_ here because open
is a Lean keyword. -/
structure ChartData where
  timestamp : Int
  value : ℚ
  open_ : Option ℚ := none
  high : Option ℚ := none
  low : Option ℚ := none
  close : Option ℚ := none
  volume : Option ℚ := none
  deriving DecidableEq

/-- A price tick as passed to updateCandleWithTick:
{ timestamp, price, volume? }. -/
structure Tick where
  timestamp : Int
  price : ℚ
  volume : Option ℚ := none
  deriving DecidableEq

/-- JS expression (x || d) for an optional number x: yields d when x is
undefined or zero (both falsy), otherwise the value of x. -/
def jsOr (x : Option ℚ) (d : ℚ) : ℚ :=
  match x with
  | some v => if v = 0 then d else v
  | none => d

/-- The discard guard of updateCandleWithTick,
src/utils/candleUtils.ts lines 57-60:
if (lastHistoricalTimestamp && tick.timestamp <= lastHistoricalTimestamp).
The first conjunct is JS truthiness, so a supplied boundary of 0 never
discards. -/
def shouldDiscardTick (lastHistoricalTimestamp : Option Int) (tickTimestamp : Int) : Bool :=
  match lastHistoricalTimestamp with
  | some b => decide (b ≠ 0 ∧ tickTimestamp ≤ b)
  | none => false

/-- The in-place update of the last candle, src/utils/candleUtils.ts
lines 72-80: spread of the last candle with timestamp, value, close,
high, low, volume overridden (open is inherited). -/
def updatedLastCandle (lastCandle : ChartData) (tick : Tick) (candleStart : Int) : ChartData :=
  { lastCandle with
    timestamp := candleStart
    value := tick.price
    close := some tick.price
    high := some (max (jsOr lastCandle.high lastCandle.value) tick.price)
    low := some (min (jsOr lastCandle.low lastCandle.value) tick.price)
    volume := some (jsOr lastCandle.volume 0 + jsOr tick.volume 0) }

/-- The fresh candle created for a new period, src/utils/candleUtils.ts
lines 87-95. -/
def mkNewCandle (tick : Tick) (candleStart : Int) : ChartData :=
  { timestamp := candleStart
    value := tick.price
    open_ := some tick.price
    high := some tick.price
    low := some tick.price
    close := some tick.price
    volume := some (jsOr tick.volume 0) }

/-- The length cap of src/utils/candleUtils.ts lines 100-102:
newCandles.slice(-1000) keeps the most recent 1000 entries. -/
def capTo1000 (l : List ChartData) : List ChartData :=
  if l.length > 1000 then l.drop (l.length - 1000) else l

/-- updateCandleWithTick from src/utils/candleUtils.ts lines 51-105.
Discard ticks at or before a truthy historical boundary; fold a tick
into the last candle when it falls in the same aligned period; otherwise
append a fresh candle and cap the series at 1000 entries. -/
def updateCandleWithTick (candles : List ChartData) (tick : Tick)
    (timeframe : Timeframe) (lastHistoricalTimestamp : Option Int) : List ChartData :=
  if shouldDiscardTick lastHistoricalTimestamp tick.timestamp then
    candles
  else
    let candleStart := getCandleStartTimestamp tick.timestamp timeframe
    let appended := capTo1000 (candles ++ [mkNewCandle tick candleStart])
    match candles.getLast? with
    | some lastCandle =>
      if candleStart = getCandleStartTimestamp lastCandle.timestamp timeframe then
        candles.dropLast ++ [updatedLastCandle lastCandle tick candleStart]
      else
        appended
    | none => appended

/-- The same-period OHLC merge of src/utils/candleUtils.ts lines
150-157: spread of the last historical candle with high, low, close,
value, volume overridden (timestamp and open inherited). -/
def mergedCandle (lastHistorical firstRealtimeCandle : ChartData) : ChartData :=
  { lastHistorical with
    high := some (max (jsOr lastHistorical.high lastHistorical.value)
      (jsOr firstRealtimeCandle.high firstRealtimeCandle.value))
    low := some (min (jsOr lastHistorical.low lastHistorical.value)
      (jsOr firstRealtimeCandle.low firstRealtimeCandle.value))
    close := some (jsOr firstRealtimeCandle.close firstRealtimeCandle.value)
    value := firstRealtimeCandle.value
    volume := some (jsOr lastHistorical.volume 0 + jsOr firstRealtimeCandle.volume 0) }

/-- mergeHistoricalAndRealtime from src/utils/candleUtils.ts lines
115-169. Empty inputs are identity cases; otherwise real-time candles
are filtered to aligned boundaries strictly after the last historical
boundary, a first survivor landing exactly on that boundary would be
spliced as a merged candle, and the remainder is appended. -/
def mergeHistoricalAndRealtime (historical realtime : List ChartData)
    (timeframe : Timeframe) : List ChartData :=
  match historical.getLast? with
  | none => realtime
  | some lastHistorical =>
    if realtime.isEmpty then
      historical
    else
      let lastHistoricalCandleStart := getCandleStartTimestamp lastHistorical.timestamp timeframe
      let newRealtimeCandles := realtime.filter fun candle =>
        decide (getCandleStartTimestamp candle.timestamp timeframe > lastHistoricalCandleStart)
      match newRealtimeCandles with
      | [] => historical ++ newRealtimeCandles
      | firstRealtimeCandle :: restRealtime =>
        if getCandleStartTimestamp firstRealtimeCandle.timestamp timeframe
            = lastHistoricalCandleStart then
          historical.dropLast ++ [mergedCandle lastHistorical firstRealtimeCandle] ++ restRealtime
        else
          historical ++ newRealtimeCandles

/-- Boolean test that pat is a character-wise head of the list, used to
model the JS String.prototype.includes calls in the close handlers. -/
def charsStartWith : List Char → List Char → Bool
  | [], _ => true
  | _ :: _, [] => false
  | a :: as, b :: bs => a == b && charsStartWith as bs

/-- Boolean test that pat occurs contiguously somewhere in the list. -/
def charsContain (pat : List Char) : List Char → Bool
  | [] => charsStartWith pat []
  | c :: cs => charsStartWith pat (c :: cs) || charsContain pat cs

/-- JS s.includes(pat) on strings. In the close handlers it always
appears guarded as (event.reason && event.reason.includes(pat)); the
truthiness guard only short-circuits the empty string, for which
includes of a non-empty pattern is false anyway, so the guarded
expression equals this function whenever pat is non-empty. -/
def strIncludes (s pat : String) : Bool :=
  charsContain pat.toList s.toList

/-- Categories of the error callback invocations made by the Finnhub
onclose handler, src/services/finnhubWebSocket.ts lines 156-209,
distinguished by the message each branch constructs. -/
inductive CloseErrorKind
  | rateLimit
  | authFailure
  | uncleanClose
  | maxAttempts
  deriving DecidableEq

/-- Observable outcome of one onclose handler run: the error callbacks
fired (in order), the delay of the reconnect timer if one is scheduled,
the reconnect-attempt counter afterwards, and whether the rate-limit
cooldown was armed. -/
structure CloseOutcome where
  errors : List CloseErrorKind
  reconnectDelayAfter : Option Int
  attemptsAfter : Nat
  rateLimitSet : Bool
  deriving DecidableEq

/-- The ws.onclose handler of src/services/finnhubWebSocket.ts lines
156-209, as a function of the close event (code, reason, wasClean) and
the retry state (reconnectAttempts, maxReconnectAttempts,
reconnectDelay). The error callback is modelled as installed; each
branch that would invoke it contributes its category. A rate-limited
close sets the cooldown and pins the attempt counter at the maximum; the
special-code branch (1000, 1008, 1011 or a 429 reason) never schedules a
reconnect; otherwise a timer is scheduled after
reconnectDelay * 2 ^ (attempts + 1 - 1) while attempts remain, and a
final max-attempts error is reported once they are exhausted. -/
def finnhubOnClose (code : Int) (reason : String) (wasClean : Bool)
    (attempts maxAttempts : Nat) (reconnectDelay : Int) : CloseOutcome :=
  let isRateLimited := strIncludes reason "429"
  if code = 1000 ∨ code = 1008 ∨ code = 1011 ∨ isRateLimited = true then
    if isRateLimited = true then
      { errors := [.rateLimit], reconnectDelayAfter := none,
        attemptsAfter := maxAttempts, rateLimitSet := true }
    else if code = 1008 ∨ strIncludes reason "403" = true then
      { errors := [.authFailure], reconnectDelayAfter := none,
        attemptsAfter := attempts, rateLimitSet := false }
    else
      { errors := if wasClean then [] else [.uncleanClose],
        reconnectDelayAfter := none, attemptsAfter := attempts, rateLimitSet := false }
  else if attempts < maxAttempts then
    { errors := [], reconnectDelayAfter := some (reconnectDelay * 2 ^ (attempts + 1 - 1)),
      attemptsAfter := attempts + 1, rateLimitSet := false }
  else
    { errors := [.maxAttempts], reconnectDelayAfter := none,
      attemptsAfter := attempts, rateLimitSet := false }

/-- The ws.onclose handler of src/services/eodhdWebSocket.ts lines
101-114: every close schedules a reconnect after the fixed
reconnectDelay while attempts remain, and once they are exhausted it
does nothing at all (no error callback is invoked). -/
def eodhdOnClose (attempts maxAttempts : Nat) (reconnectDelay : Int) : CloseOutcome :=
  if attempts < maxAttempts then
    { errors := [], reconnectDelayAfter := some reconnectDelay,
      attemptsAfter := attempts + 1, rateLimitSet := false }
  else
    { errors := [], reconnectDelayAfter := none,
      attemptsAfter := attempts, rateLimitSet := false }

/-- One call of the Candle Builder contract applyTick: the tick together
with the timeframe and optional historical boundary it was applied
with. -/
structure TickEvent where
  tick : Tick
  tf : Timeframe
  boundary : Option Int

/-- Fold a finite sequence of applyTick calls over the empty real-time
series, as the live aggregation path does tick by tick. -/
def applyTickEvents (events : List TickEvent) : List ChartData :=
  events.foldl (fun s e => updateCandleWithTick s e.tick e.tf e.boundary) []


/-! ### Basic lemmas about alignment and the JS fallback -/

theorem getCandlePeriodMs_pos (tf : Timeframe) : 0 < getCandlePeriodMs tf := by
  cases tf <;> decide

theorem getCandleStartTimestamp_le (t : Int) (tf : Timeframe) :
    getCandleStartTimestamp t tf ≤ t :=
  Int.ediv_mul_le t (getCandlePeriodMs_pos tf).ne'

theorem getCandleStartTimestamp_idem (t : Int) (tf : Timeframe) :
    getCandleStartTimestamp (getCandleStartTimestamp t tf) tf = getCandleStartTimestamp t tf := by
  unfold getCandleStartTimestamp
  rw [Int.mul_ediv_cancel _ (getCandlePeriodMs_pos tf).ne']

theorem timestamp_lt_of_aligned_lt {x y : Int} {tf : Timeframe}
    (h : getCandleStartTimestamp x tf < getCandleStartTimestamp y tf) : x < y := by
  unfold getCandleStartTimestamp at h
  have hppos : 0 < getCandlePeriodMs tf := getCandlePeriodMs_pos tf
  have h1 : x / getCandlePeriodMs tf < y / getCandlePeriodMs tf :=
    (mul_lt_mul_right hppos).mp h
  have h2 : x < (x / getCandlePeriodMs tf + 1) * getCandlePeriodMs tf :=
    Int.lt_ediv_add_one_mul_self x hppos
  have h3 : (x / getCandlePeriodMs tf + 1) * getCandlePeriodMs tf
      ≤ y / getCandlePeriodMs tf * getCandlePeriodMs tf :=
    mul_le_mul_of_nonneg_right (Int.add_one_le_iff.mpr h1) hppos.le
  exact lt_of_lt_of_le h2 (le_trans h3 (Int.ediv_mul_le y hppos.ne'))

theorem jsOr_some_self (v : ℚ) : jsOr (some v) v = v := by
  by_cases h : v = 0 <;> simp [jsOr, h]

theorem jsOr_some_zero (v : ℚ) : jsOr (some v) 0 = v := by
  by_cases h : v = 0 <;> simp [jsOr, h]

/-! ### Helper lemmas about the merger -/

theorem merge_nil_left (R : List ChartData) (tf : Timeframe) :
    mergeHistoricalAndRealtime [] R tf = R := rfl

theorem merge_nil_right (H : List ChartData) (tf : Timeframe) :
    mergeHistoricalAndRealtime H [] tf = H := by
  unfold mergeHistoricalAndRealtime
  cases h : H.getLast? with
  | none =>
    have hH := List.getLast?_eq_none_iff.mp h
    subst hH
    rfl
  | some lh => simp [h]

theorem merge_eq_filter_append {hist rt : List ChartData} {tf : Timeframe} {lh : ChartData}
    (hlh : hist.getLast? = some lh) (hrt : rt ≠ []) :
    mergeHistoricalAndRealtime hist rt tf
    = hist ++ rt.filter fun candle =>
        decide (getCandleStartTimestamp candle.timestamp tf
          > getCandleStartTimestamp lh.timestamp tf) := by
  unfold mergeHistoricalAndRealtime
  rw [hlh]
  have hempty : rt.isEmpty = false := by
    simpa [List.isEmpty_iff] using hrt
  simp only [hempty, Bool.false_eq_true, if_false]
  cases hf : rt.filter (fun candle =>
      decide (getCandleStartTimestamp candle.timestamp tf
        > getCandleStartTimestamp lh.timestamp tf)) with
  | nil => simp [hf]
  | cons a as =>
    have ha : a ∈ rt.filter (fun candle =>
        decide (getCandleStartTimestamp candle.timestamp tf
          > getCandleStartTimestamp lh.timestamp tf)) := by
      rw [hf]; exact List.mem_cons_self a as
    have hgt : getCandleStartTimestamp lh.timestamp tf
        < getCandleStartTimestamp a.timestamp tf :=
      of_decide_eq_true (List.mem_filter.mp ha).2
    simp [hf, ne_of_gt hgt]

/-! ### Claim theorems -/

/-- C9: merge is left- and right-identity on empty inputs: for every
realtime series R, historical series H, and timeframe tf,
merge([], R, tf) = R and merge(H, [], tf) = H, with the non-empty
argument returned unchanged. -/
theorem merge_empty_identity (H R : List ChartData) (tf : Timeframe) :
    mergeHistoricalAndRealtime [] R tf = R ∧ mergeHistoricalAndRealtime H [] tf = H :=
  ⟨merge_nil_left R tf, merge_nil_right H tf⟩

/-- C10: calling updateCandleWithTick with lastHistoricalTimestamp equal
to 0 behaves exactly as if no boundary had been supplied: the discard
check is guarded by JS truthiness of the boundary, so with a boundary of
0 no tick is ever dropped, including a tick whose timestamp is at most
0. -/
theorem zero_boundary_ignored (candles : List ChartData) (tick : Tick) (tf : Timeframe) :
    updateCandleWithTick candles tick tf (some 0) = updateCandleWithTick candles tick tf none := by
  simp [updateCandleWithTick, shouldDiscardTick]

/-- C7 counterexample: with a supplied boundary of 0 and a tick whose
timestamp is 0 (hence at most the boundary), the series is NOT returned
unchanged — the tick is accepted and a candle is appended, refuting the
unconditional discard rule of the claim. -/
theorem tick_discard_boundary_cex :
    updateCandleWithTick [] { timestamp := 0, price := 1 } Timeframe.h1 (some 0) ≠ [] := by
  decide

/-- C7 amended: when a NONZERO lastHistoricalBoundary is supplied and
tick.timestamp is at most that boundary, applyTick returns the series
unchanged; in particular with lastHistoricalBoundary = 1000, a tick with
timestamp 1000 is discarded while a tick with timestamp 1001 is accepted
and starts a new candle. -/
theorem tick_discard_boundary :
    (∀ (candles : List ChartData) (t : Tick) (tf : Timeframe) (b : Int),
      b ≠ 0 → t.timestamp ≤ b →
      updateCandleWithTick candles t tf (some b) = candles)
    ∧ (∀ (tf : Timeframe) (p : ℚ) (v : Option ℚ),
        updateCandleWithTick [] { timestamp := 1000, price := p, volume := v } tf (some 1000) = []
        ∧ updateCandleWithTick [] { timestamp := 1001, price := p, volume := v } tf (some 1000)
          = [mkNewCandle { timestamp := 1001, price := p, volume := v }
              (getCandleStartTimestamp 1001 tf)]) := by
  constructor
  · intro candles t tf b hb hle
    simp [updateCandleWithTick, shouldDiscardTick, hb, hle]
  · intro tf p v
    constructor
    · simp [updateCandleWithTick, shouldDiscardTick]
    · simp [updateCandleWithTick, shouldDiscardTick, capTo1000]

/-- C7 witness: the amended discard rule applied at a concrete nonzero
boundary. -/
theorem tick_discard_boundary_witness :
    updateCandleWithTick [] { timestamp := 5, price := 3 } Timeframe.h1 (some 7) = [] :=
  tick_discard_boundary.1 [] { timestamp := 5, price := 3 } Timeframe.h1 7
    (by decide) (by decide)

/-- C1 counterexample: at the literal scenario data (periodStarts 1000
and 2000), every concrete timeframe period is at least one hour, so both
real-time candles fall in the same aligned period as the historical
candle and are removed by the strict filter; the merge returns the
historical list unchanged, of total length 1, not 2, with no OHLC
splice. -/
theorem merge_overlap_scenario_cex :
    mergeHistoricalAndRealtime
      [{ timestamp := 1000, value := 10, open_ := some 10, high := some 10,
         low := some 10, close := some 10, volume := some 3 }]
      [{ timestamp := 1000, value := 11, open_ := some 10, high := some 12,
         low := some 9, close := some 11, volume := some 5 },
       { timestamp := 2000, value := 13, open_ := some 11, high := some 13,
         low := some 11, close := some 13, volume := some 2 }]
      Timeframe.h1
    = [{ timestamp := 1000, value := 10, open_ := some 10, high := some 10,
         low := some 10, close := some 10, volume := some 3 }] := by
  decide

/-- C1 amended: in the aligned form of the scenario (timeframe 1H,
periodStarts 0 and 3600000), merge returns a sequence of total length 2
whose first element is the HISTORICAL candle unchanged — the overlapping
real-time candle for the same period is discarded by the strict filter,
never OHLC-merged — and whose second element is the next-period
real-time candle unchanged. -/
theorem merge_overlap_scenario :
    mergeHistoricalAndRealtime
      [{ timestamp := 0, value := 10, open_ := some 10, high := some 10,
         low := some 10, close := some 10, volume := some 3 }]
      [{ timestamp := 0, value := 11, open_ := some 10, high := some 12,
         low := some 9, close := some 11, volume := some 5 },
       { timestamp := 3600000, value := 13, open_ := some 11, high := some 13,
         low := some 11, close := some 13, volume := some 2 }]
      Timeframe.h1
    = [{ timestamp := 0, value := 10, open_ := some 10, high := some 10,
         low := some 10, close := some 10, volume := some 3 },
       { timestamp := 3600000, value := 13, open_ := some 11, high := some 13,
         low := some 11, close := some 13, volume := some 2 }] := by
  decide

/-- C2 counterexample: the EODHD client refutes the claim that both
provider clients back off exponentially and surface a fatal error at the
cap. At attempt 1 of 5 with base delay 3000 it schedules the SECOND
attempt after the fixed 3000 ms, where the claimed formula
baseDelay * 2 ^ (attempt - 1) gives 6000 ms for attempt 2; and with
attempts exhausted (5 of 5) it invokes no error callback at all. -/
theorem reconnect_backoff_cex :
    (eodhdOnClose 1 5 3000).reconnectDelayAfter = some 3000
    ∧ (3000 : Int) ≠ 3000 * 2 ^ (2 - 1)
    ∧ (eodhdOnClose 5 5 3000).errors = [] := by
  decide

/-- C2 amended: only the Finnhub client implements the claimed policy.
On an unexpected close (code outside 1000, 1008, 1011 and no 429 in the
reason) with attempts remaining, Finnhub schedules the reconnect after
baseDelay * 2 ^ (attempt - 1) with attempt starting at 1, and surfaces a
fatal max-attempts error once the cap is exhausted. The EODHD client
instead retries after the fixed baseDelay on every close and surfaces NO
error when the cap is exhausted. -/
theorem reconnect_backoff :
    (∀ (code : Int) (reason : String) (wasClean : Bool) (attempts maxA : Nat) (d : Int),
      ¬(code = 1000 ∨ code = 1008 ∨ code = 1011) →
      strIncludes reason "429" = false →
      (attempts < maxA →
        finnhubOnClose code reason wasClean attempts maxA d
        = { errors := [], reconnectDelayAfter := some (d * 2 ^ (attempts + 1 - 1)),
            attemptsAfter := attempts + 1, rateLimitSet := false })
      ∧ (¬ attempts < maxA →
        finnhubOnClose code reason wasClean attempts maxA d
        = { errors := [.maxAttempts], reconnectDelayAfter := none,
            attemptsAfter := attempts, rateLimitSet := false }))
    ∧ (∀ (attempts maxA : Nat) (d : Int),
      (attempts < maxA →
        eodhdOnClose attempts maxA d
        = { errors := [], reconnectDelayAfter := some d,
            attemptsAfter := attempts + 1, rateLimitSet := false })
      ∧ (¬ attempts < maxA →
        eodhdOnClose attempts maxA d
        = { errors := [], reconnectDelayAfter := none,
            attemptsAfter := attempts, rateLimitSet := false })) := by
  constructor
  · intro code reason wasClean attempts maxA d hcode h429
    push_neg at hcode
    constructor
    · intro hlt
      simp [finnhubOnClose, h429, hcode.1, hcode.2.1, hcode.2.2, hlt]
    · intro hge
      simp [finnhubOnClose, h429, hcode.1, hcode.2.1, hcode.2.2, hge]
  · intro attempts maxA d
    constructor
    · intro hlt
      simp [eodhdOnClose, hlt]
    · intro hge
      simp [eodhdOnClose, hge]

/-- C2 witness: the amended backoff behavior at concrete inputs — an
unexpected Finnhub close at attempt counter 0 schedules the first retry
after 3000 * 2 ^ 0 ms, and an EODHD close at attempt counter 1 schedules
the next retry after the fixed 3000 ms. -/
theorem reconnect_backoff_witness :
    finnhubOnClose 1006 "" false 0 5 3000
    = { errors := [], reconnectDelayAfter := some (3000 * 2 ^ (0 + 1 - 1)),
        attemptsAfter := 1, rateLimitSet := false }
    ∧ eodhdOnClose 1 5 3000
    = { errors := [], reconnectDelayAfter := some 3000,
        attemptsAfter := 2, rateLimitSet := false } :=
  ⟨(reconnect_backoff.1 1006 "" false 0 5 3000 (by decide) (by decide)).1 (by decide),
   (reconnect_backoff.2 1 5 3000).1 (by decide)⟩

/-- C3 counterexample: a Finnhub close event whose reason contains "403"
but whose code is 1006 (an abnormal closure, not one of 1000, 1008,
1011) does NOT reach the authentication branch: no error callback fires
and a reconnect timer IS scheduled, refuting the claim that the reason
alone decides regardless of the numeric close code. -/
theorem auth_close_cex :
    strIncludes "403" "403" = true
    ∧ finnhubOnClose 1006 "403" false 0 5 3000
      = { errors := [], reconnectDelayAfter := some 3000,
          attemptsAfter := 1, rateLimitSet := false } := by
  decide

/-- C3 amended: a Finnhub close event whose reason contains "403" and
does not contain "429", and whose close code is one of 1000, 1008 or
1011, triggers exactly one error callback categorized as authentication
failure and schedules no reconnect timer; with any other close code the
event follows the ordinary reconnect path instead. -/
theorem auth_close_behavior (code : Int) (reason : String) (wasClean : Bool)
    (attempts maxA : Nat) (d : Int)
    (h403 : strIncludes reason "403" = true)
    (h429 : strIncludes reason "429" = false)
    (hcode : code = 1000 ∨ code = 1008 ∨ code = 1011) :
    finnhubOnClose code reason wasClean attempts maxA d
    = { errors := [.authFailure], reconnectDelayAfter := none,
        attemptsAfter := attempts, rateLimitSet := false } := by
  rcases hcode with h | h | h <;> subst h <;> simp [finnhubOnClose, h429, h403]

/-- C3 witness: the amended authentication rule at a concrete close
event with code 1000 and reason containing "403". -/
theorem auth_close_behavior_witness :
    finnhubOnClose 1000 "closed: 403 forbidden" false 2 5 3000
    = { errors := [.authFailure], reconnectDelayAfter := none,
        attemptsAfter := 2, rateLimitSet := false } :=
  auth_close_behavior 1000 "closed: 403 forbidden" false 2 5 3000
    (by decide) (by decide) (by decide)

/-- C6: for every timeframe and ticks t1, t2 with t1.timestamp earlier
than t2.timestamp in the same aligned period, applying t1 then t2 to an
empty series yields exactly one candle with open t1.price, close
t2.price, high the larger and low the smaller of the two prices. -/
theorem two_ticks_one_candle (t1 t2 : Tick) (tf : Timeframe)
    (horder : t1.timestamp < t2.timestamp)
    (hsame : getCandleStartTimestamp t1.timestamp tf = getCandleStartTimestamp t2.timestamp tf) :
    updateCandleWithTick (updateCandleWithTick [] t1 tf none) t2 tf none
    = [{ timestamp := getCandleStartTimestamp t1.timestamp tf
         value := t2.price
         open_ := some t1.price
         high := some (max t1.price t2.price)
         low := some (min t1.price t2.price)
         close := some t2.price
         volume := some (jsOr t1.volume 0 + jsOr t2.volume 0) }] := by
  have h1 : updateCandleWithTick [] t1 tf none
      = [mkNewCandle t1 (getCandleStartTimestamp t1.timestamp tf)] := by
    simp [updateCandleWithTick, shouldDiscardTick, capTo1000]
  rw [h1]
  simp [updateCandleWithTick, shouldDiscardTick, mkNewCandle, updatedLastCandle,
    getCandleStartTimestamp_idem, hsame, jsOr_some_self, jsOr_some_zero]

/-- C6 witness: two same-period ticks at concrete values, ending in the
single candle the claim predicts. -/
theorem two_ticks_one_candle_witness :
    updateCandleWithTick
      (updateCandleWithTick [] { timestamp := 0, price := 10 } Timeframe.h1 none)
      { timestamp := 1000, price := 12, volume := some 5 } Timeframe.h1 none
    = [{ timestamp := getCandleStartTimestamp 0 Timeframe.h1
         value := 12
         open_ := some 10
         high := some (max 10 12)
         low := some (min 10 12)
         close := some 12
         volume := some (jsOr none 0 + jsOr (some 5) 0) }] :=
  two_ticks_one_candle { timestamp := 0, price := 10 }
    { timestamp := 1000, price := 12, volume := some 5 } Timeframe.h1
    (by decide) (by decide)

/-- C5: the defensive same-boundary splice branch of merge is
unreachable. For every pair of non-empty inputs the surviving real-time
candles all have aligned boundary strictly greater than the last
historical boundary, so the result is exactly
historical ++ filteredRealtime. -/
theorem merge_splice_unreachable (hist rt : List ChartData) (tf : Timeframe) (lh : ChartData)
    (hlh : hist.getLast? = some lh) (hrt : rt ≠ []) :
    mergeHistoricalAndRealtime hist rt tf
    = hist ++ rt.filter fun candle =>
        decide (getCandleStartTimestamp candle.timestamp tf
          > getCandleStartTimestamp lh.timestamp tf) :=
  merge_eq_filter_append hlh hrt

/-- C5 witness: the no-splice shape of merge at a concrete pair of
non-empty inputs. -/
theorem merge_splice_unreachable_witness :
    mergeHistoricalAndRealtime
      [{ timestamp := 0, value := 1 }] [{ timestamp := 3600000, value := 2 }] Timeframe.h1
    = [{ timestamp := 0, value := 1 }]
      ++ [({ timestamp := 3600000, value := 2 } : ChartData)].filter fun candle =>
        decide (getCandleStartTimestamp candle.timestamp Timeframe.h1
          > getCandleStartTimestamp (0 : Int) Timeframe.h1) :=
  merge_splice_unreachable [{ timestamp := 0, value := 1 }]
    [{ timestamp := 3600000, value := 2 }] Timeframe.h1
    { timestamp := 0, value := 1 } rfl (by decide)

/-! ### Length bound for the candle builder -/

theorem capTo1000_length_le {l : List ChartData} (hl : l.length ≤ 1001) :
    (capTo1000 l).length ≤ 1000 := by
  unfold capTo1000
  split
  · rw [List.length_drop]
    omega
  · omega

theorem updateCandleWithTick_length_le (s : List ChartData) (t : Tick) (tf : Timeframe)
    (b : Option Int) (hs : s.length ≤ 1000) :
    (updateCandleWithTick s t tf b).length ≤ 1000 := by
  simp only [updateCandleWithTick]
  split
  · exact hs
  · split
    · split
      · rename_i lastCandle heq _
        have hne : s ≠ [] := by
          intro h
          subst h
          simp at heq
        rw [List.length_append, List.length_dropLast]
        have hpos : 0 < s.length := List.length_pos.mpr hne
        simp only [List.length_cons, List.length_nil]
        omega
      · exact capTo1000_length_le (by rw [List.length_append]; simp; omega)
    · exact capTo1000_length_le (by rw [List.length_append]; simp; omega)

/-- C8: starting from an empty real-time series, after any finite number
of applyTick calls with arbitrary ticks, timeframes, and optional
boundaries, the series length never exceeds 1000; and at the cap, the
oldest entry is the one dropped: a non-discarded new-period tick applied
to a length-1000 series yields the tail of the series (first candle
removed) followed by the fresh candle. -/
theorem series_length_cap :
    (∀ events : List TickEvent, (applyTickEvents events).length ≤ 1000)
    ∧ (∀ (s : List ChartData) (t : Tick) (tf : Timeframe) (b : Option Int),
        s.length = 1000 →
        shouldDiscardTick b t.timestamp = false →
        (∀ c, s.getLast? = some c →
          getCandleStartTimestamp t.timestamp tf ≠ getCandleStartTimestamp c.timestamp tf) →
        updateCandleWithTick s t tf b
          = s.drop 1 ++ [mkNewCandle t (getCandleStartTimestamp t.timestamp tf)]) := by
  constructor
  · intro events
    suffices h : ∀ (evs : List TickEvent) (init : List ChartData), init.length ≤ 1000 →
        (evs.foldl (fun s e => updateCandleWithTick s e.tick e.tf e.boundary) init).length
          ≤ 1000 by
      exact h events [] (by simp)
    intro evs
    induction evs with
    | nil => intro init h; simpa using h
    | cons e es ih =>
      intro init h
      exact ih _ (updateCandleWithTick_length_le _ _ _ _ h)
  · intro s t tf b hlen hdisc hne
    have hsne : s ≠ [] := by
      intro h
      subst h
      simp at hlen
    obtain ⟨c, hc⟩ := Option.isSome_iff_exists.mp (List.getLast?_isSome.mpr hsne)
    simp only [updateCandleWithTick, hdisc, Bool.false_eq_true, if_false, hc]
    rw [if_neg (hne c hc)]
    unfold capTo1000
    rw [if_pos (by rw [List.length_append]; simp [hlen])]
    rw [List.length_append, List.drop_append_of_le_length (by simp [hlen])]
    simp [hlen]

/-- C8 witness: the oldest-drop behavior applied at a concrete
length-1000 series hit by a new-period tick. -/
theorem series_length_cap_witness :
    updateCandleWithTick
      (List.replicate 999 ({ timestamp := 0, value := 1 } : ChartData)
        ++ [({ timestamp := 0, value := 1 } : ChartData)])
      ({ timestamp := 3600000, price := 2 } : Tick) Timeframe.h1 none
    = (List.replicate 999 ({ timestamp := 0, value := 1 } : ChartData)
        ++ [({ timestamp := 0, value := 1 } : ChartData)]).drop 1
      ++ [mkNewCandle ({ timestamp := 3600000, price := 2 } : Tick)
          (getCandleStartTimestamp 3600000 Timeframe.h1)] :=
  series_length_cap.2 _ _ Timeframe.h1 none
    (by rw [List.length_append, List.length_replicate]; rfl)
    (by rfl)
    (by
      intro c hc
      rw [List.getLast?_concat] at hc
      cases hc
      decide)

/-! ### Ordering of the merged output -/

theorem rel_getLast_of_pairwise {α : Type} {R : α → α → Prop} :
    ∀ {l : List α} {x : α}, l.Pairwise R → l.getLast? = some x →
      ∀ a ∈ l, a = x ∨ R a x := by
  intro l
  induction l with
  | nil =>
    intro x _ h
    simp at h
  | cons y ys ih =>
    intro x hp hlast a ha
    cases ys with
    | nil =>
      simp only [List.getLast?_singleton, Option.some.injEq] at hlast
      rcases List.mem_singleton.mp ha with rfl
      exact Or.inl hlast
    | cons z zs =>
      rw [List.getLast?_cons_cons] at hlast
      rcases List.mem_cons.mp ha with rfl | hmem
      · have hx : x ∈ z :: zs := List.mem_of_getLast?_eq_some hlast
        exact Or.inr ((List.pairwise_cons.mp hp).1 x hx)
      · exact ih (List.pairwise_cons.mp hp).2 hlast a hmem

/-- C4: for every historical and realtime series whose candles are each
strictly increasing in timeframe-aligned periodStart, the output of
merge is strictly ordered by periodStart, hence contains no two candles
sharing a periodStart. -/
theorem merge_strictly_ordered (hist rt : List ChartData) (tf : Timeframe)
    (hh : hist.Pairwise fun a b =>
      getCandleStartTimestamp a.timestamp tf < getCandleStartTimestamp b.timestamp tf)
    (hr : rt.Pairwise fun a b =>
      getCandleStartTimestamp a.timestamp tf < getCandleStartTimestamp b.timestamp tf) :
    (mergeHistoricalAndRealtime hist rt tf).Pairwise fun a b => a.timestamp < b.timestamp := by
  rcases eq_or_ne hist [] with rfl | hhne
  · rw [merge_nil_left]
    exact hr.imp fun h => timestamp_lt_of_aligned_lt h
  · rcases eq_or_ne rt [] with rfl | hrne
    · rw [merge_nil_right]
      exact hh.imp fun h => timestamp_lt_of_aligned_lt h
    · obtain ⟨lh, hlh⟩ := Option.isSome_iff_exists.mp (List.getLast?_isSome.mpr hhne)
      rw [merge_eq_filter_append hlh hrne]
      apply List.pairwise_append.mpr
      refine ⟨hh.imp fun h => timestamp_lt_of_aligned_lt h,
        (hr.filter _).imp fun h => timestamp_lt_of_aligned_lt h, ?_⟩
      intro a ha b hb
      have hbgt : getCandleStartTimestamp lh.timestamp tf
          < getCandleStartTimestamp b.timestamp tf :=
        of_decide_eq_true (List.mem_filter.mp hb).2
      have hab : getCandleStartTimestamp a.timestamp tf
          < getCandleStartTimestamp b.timestamp tf := by
        rcases rel_getLast_of_pairwise hh hlh a ha with rfl | hlt
        · exact hbgt
        · exact lt_trans hlt hbgt
      exact timestamp_lt_of_aligned_lt hab

/-- C4 witness: the ordering postcondition at a concrete pair of
strictly increasing inputs. -/
theorem merge_strictly_ordered_witness :
    (mergeHistoricalAndRealtime
      [{ timestamp := 0, value := 1 }, { timestamp := 3600000, value := 2 }]
      [{ timestamp := 3600000, value := 3 }, { timestamp := 7200000, value := 4 }]
      Timeframe.h1).Pairwise (fun a b => a.timestamp < b.timestamp) :=
  merge_strictly_ordered
    [{ timestamp := 0, value := 1 }, { timestamp := 3600000, value := 2 }]
    [{ timestamp := 3600000, value := 3 }, { timestamp := 7200000, value := 4 }]
    Timeframe.h1 (by decide) (by decide)
